import Mathlib

/-!
Verification development for the zebi-bingo-bot backend (src/api/bot.py).

The backend is a Flask + Telegram bot application persisting all state in a
PostgreSQL database (tables users, games, player_cards, transactions,
referrals, withdrawals).  This file gives a shallow embedding of the game
lifecycle and wallet-ledger engine: each relational table becomes a Lean list
of records, each endpoint becomes a pure function from the database state to
a structured result together with the updated database state.

Conventions of the embedding:
* The comma-joined TEXT columns `players` and `numbers_called` are modelled as
  `List Nat`.  The source always joins and splits canonical decimal renderings
  of integers, so string membership tests (`str(user_id) in players`) coincide
  with numeric membership, and an empty column splits to the empty roster
  (`players.split(',') if players else []`).
* Timestamps are modelled as integer seconds (`Int`); the only arithmetic the
  source performs on them is `(now - countdown_start).total_seconds() >= 120`
  and comparisons, which are order-preserving under this model.
* `random.randint(1, 100)` draws are modelled by an explicit list of proposed
  values handed to the function, consumed in order exactly as the rejection
  loop in the source consumes fresh draws.
* Every endpoint runs on one psycopg2 connection with `autocommit = False`;
  a path that raises before `conn.commit()` leaves the database unchanged
  (the pool rolls the connection back on release), so such paths are embedded
  as returning the input state unchanged together with an error result.
-/

/-- Constants from src/api/bot.py lines 51-58. `HOUSE_CUT = 0.02` is a float;
see `prizeAfterHouseCut` for how the payout arithmetic is embedded. -/
def BET_OPTIONS : List Int := [10, 50, 100, 200]

def GAME_COUNTDOWN_SECONDS : Int := 120

def REFERRAL_BONUS : Int := 10

def REFERRAL_THRESHOLD : Nat := 20

def MINIMUM_WITHDRAWAL : Int := 100

/-- Row of the `users` table (init_db, bot.py lines 97-113).  Only the columns
the game/wallet engine reads or writes are modelled; `wallet` is a SQL INTEGER
and therefore an `Int` (nothing in the schema prevents negative values). -/
structure User where
  user_id : Nat
  wallet : Int
  score : Nat
  role : String
  invalid_bingo_count : Nat
deriving Repr, DecidableEq

/-- Row of the `games` table (init_db, bot.py lines 138-152), with the
comma-joined `players` and `numbers_called` columns parsed into lists. -/
structure Game where
  game_id : String
  players : List Nat
  numbers_called : List Nat
  status : String
  start_time : Option Int
  end_time : Option Int
  winner_id : Option Nat
  prize_amount : Int
  bet_amount : Int
  countdown_start : Option Int
deriving Repr, DecidableEq

/-- Row of the `player_cards` table (init_db, bot.py lines 153-163).
`card_numbers` is nullable: join_game inserts a placeholder row with a NULL
card (bot.py lines 572-575). -/
structure PlayerCard where
  game_id : String
  user_id : Nat
  card_numbers : Option (List Nat)
  card_accepted : Bool
deriving Repr, DecidableEq

/-- Row of the `transactions` table (init_db, bot.py lines 114-125). -/
structure Transaction where
  tx_id : String
  user_id : Nat
  amount : Int
  method : String
  status : String
deriving Repr, DecidableEq

/-- Row of the `withdrawals` table (init_db, bot.py lines 164-175). -/
structure Withdrawal where
  withdraw_id : String
  user_id : Nat
  amount : Int
  status : String
  method : String
  admin_note : String
deriving Repr, DecidableEq

/-- Row of the `referrals` table (init_db, bot.py lines 126-137). -/
structure Referral where
  referrer_id : Nat
  referee_id : Nat
  bonus_credited : Bool
deriving Repr, DecidableEq

/-- The relational store as a whole. -/
structure DB where
  users : List User
  games : List Game
  cards : List PlayerCard
  transactions : List Transaction
  withdrawals : List Withdrawal
  referrals : List Referral
deriving Repr, DecidableEq

/-- Embeds `UPDATE users SET wallet = wallet + %s WHERE user_id = %s`
(UPDATE_WALLET_CREDIT_QUERY, bot.py line 60). -/
def creditWallet (users : List User) (uid : Nat) (amount : Int) : List User :=
  users.map (fun u => if u.user_id == uid then { u with wallet := u.wallet + amount } else u)

/-- Embeds `UPDATE users SET wallet = wallet - %s WHERE user_id = %s`
(UPDATE_WALLET_DEBIT_QUERY, bot.py line 61). -/
def debitWallet (users : List User) (uid : Nat) (amount : Int) : List User :=
  users.map (fun u => if u.user_id == uid then { u with wallet := u.wallet - amount } else u)

/-- Lookup of a game row by primary key, as performed by
`SELECT ... FROM games WHERE game_id = %s`. -/
def gameOf (db : DB) (gid : String) : Option Game :=
  db.games.find? (fun g => g.game_id == gid)

/-- Lookup of a user row by primary key. -/
def userOf (db : DB) (uid : Nat) : Option User :=
  db.users.find? (fun u => u.user_id == uid)

/-- Wallet column of a user row, when the row exists. -/
def walletOf (db : DB) (uid : Nat) : Option Int :=
  (userOf db uid).map (fun u => u.wallet)

/-- Score column of a user row, when the row exists. -/
def scoreOf (db : DB) (uid : Nat) : Option Nat :=
  (userOf db uid).map (fun u => u.score)

/-- invalid_bingo_count column of a user row, when the row exists. -/
def invalidCountOf (db : DB) (uid : Nat) : Option Nat :=
  (userOf db uid).map (fun u => u.invalid_bingo_count)

/-- Lookup of the player card for a (game, user) pair, as performed by
`SELECT card_numbers FROM player_cards WHERE game_id = %s AND user_id = %s`
(SELECT_CARD_NUMBERS_QUERY, bot.py line 62). -/
def cardOf (db : DB) (gid : String) (uid : Nat) : Option PlayerCard :=
  db.cards.find? (fun c => c.game_id == gid && c.user_id == uid)

/-- Lookup of a pending withdrawal row, as performed by
`SELECT user_id, amount FROM withdrawals WHERE withdraw_id = %s AND status = 'pending'`. -/
def pendingWithdrawalOf (db : DB) (wid : String) : Option Withdrawal :=
  db.withdrawals.find? (fun w => w.withdraw_id == wid && w.status == "pending")

/-- Status of a withdrawal row, when it exists. -/
def withdrawalStatusOf (db : DB) (wid : String) : Option String :=
  (db.withdrawals.find? (fun w => w.withdraw_id == wid)).map (fun w => w.status)

/-! ## The win predicate of check_bingo (bot.py lines 769-778)

The source computes

  card_numbers = set(card[0].split(','))
  numbers_called_set = set(numbers_called.split(',')) if numbers_called else set()
  marked = [num for num in card_numbers if num in numbers_called_set]
  card_grid = [marked[i:i+5] for i in range(0, 25, 5)]
  won = (any(len(row) == 5 for row in card_grid) or
         any(all(str(i*5 + col) in marked for i in range(5)) for col in range(5)) or
         all(str(i*5 + i) in marked for i in range(5)) or
         all(str(i*5 + (4-i)) in marked for i in range(5)))

`marked` lists (in Python set iteration order) the distinct card numbers that
appear among the called numbers.  `won` depends only on the length of `marked`
and on which values belong to it, both of which are independent of the set
iteration order, so `marked` is embedded as the drawn card numbers in card
order with duplicates removed (`dedup` mirrors the `set(...)` constructor).
Note that the column and diagonal clauses test membership of the grid INDEX
values `i*5 + col` (0, 1, ..., 24) in `marked`, not membership of the card
numbers laid out on a grid; this is faithfully reproduced below. -/

/-- The `marked` list of check_bingo: distinct card numbers already called. -/
def marked (card_numbers numbers_called : List Nat) : List Nat :=
  card_numbers.dedup.filter (fun n => numbers_called.contains n)

/-- The `card_grid` chunking `[marked[i:i+5] for i in range(0, 25, 5)]`. -/
def card_grid (m : List Nat) : List (List Nat) :=
  [0, 5, 10, 15, 20].map (fun i => (m.drop i).take 5)

/-- The `won` expression of check_bingo (bot.py lines 773-778), verbatim:
a chunk of 5 marked numbers, or a "column" / "diagonal" of grid index values
0..24 contained in the marked numbers. -/
def bingo_won (card_numbers numbers_called : List Nat) : Bool :=
  let m := marked card_numbers numbers_called
  (card_grid m).any (fun row => row.length == 5) ||
  (List.range 5).any (fun col => (List.range 5).all (fun i => m.contains (i * 5 + col))) ||
  (List.range 5).all (fun i => m.contains (i * 5 + i)) ||
  (List.range 5).all (fun i => m.contains (i * 5 + (4 - i)))

/-- Follows the spec text for `evaluateWin` (spec.md section 4.3): arrange the
25 card numbers into a 5x5 grid in stored order and return true iff some full
row, some full column, the main diagonal, or the anti-diagonal is entirely
contained in the drawn numbers.  This definition exists only to be compared
with `bingo_won`, the predicate the source actually computes. -/
def evaluateWin_spec (card_numbers numbers_called : List Nat) : Bool :=
  let cell := fun r c => card_numbers.getD (5 * r + c) 0
  (List.range 5).any (fun r => (List.range 5).all (fun c => numbers_called.contains (cell r c))) ||
  (List.range 5).any (fun c => (List.range 5).all (fun r => numbers_called.contains (cell r c))) ||
  (List.range 5).all (fun i => numbers_called.contains (cell i i)) ||
  (List.range 5).all (fun i => numbers_called.contains (cell i (4 - i)))

/-- Embeds `prize_amount = int(total_bet * (1 - HOUSE_CUT))` (bot.py line 800)
with `HOUSE_CUT = 0.02`.  In IEEE-754 doubles, `1 - 0.02` rounds to the double
nearest 0.98 (relative error about 1.8e-17), and for every total bet the code
can reach (bet at most 200 times a realistic roster, far below 2^50) the
product `total_bet * (1 - 0.02)` truncates to exactly `floor(total_bet * 98 / 100)`:
when `0.98 * total_bet` is an integer the product rounds to it exactly, and
otherwise its distance to the nearest integer is at least 0.02, dwarfing the
rounding error.  The embedding therefore uses exact integer arithmetic. -/
def prizeAfterHouseCut (total_bet : Int) : Int :=
  (total_bet * 98) / 100

/-! ## Endpoint embeddings -/

/-- Result of the /api/join_game endpoint (bot.py lines 543-587). -/
inductive JoinResult where
  | notJoinable
  | alreadyJoined
  | betMismatch
  | insufficientFunds
  | joined (playerCount : Nat)
deriving Repr, DecidableEq

/-- Embeds the /api/join_game endpoint (bot.py lines 543-587): only a waiting
game is joinable; double joins and bet mismatches are rejected; the debit is
guarded by the wallet check; the joiner is appended to the roster and gets a
placeholder card row with NULL card numbers; the first joiner stamps
`countdown_start = now`. -/
def join_game (db : DB) (uid : Nat) (gid : String) (bet : Int) (now : Int) :
    JoinResult × DB :=
  match db.games.find? (fun g => g.game_id == gid && g.status == "waiting") with
  | none => (.notJoinable, db)
  | some g =>
    if uid ∈ g.players then (.alreadyJoined, db)
    else if bet ≠ g.bet_amount then (.betMismatch, db)
    else
      match db.users.find? (fun u => u.user_id == uid) with
      | none => (.insufficientFunds, db)
      | some u =>
        if u.wallet < bet then (.insufficientFunds, db)
        else
          let players1 := g.players ++ [uid]
          let games1 := db.games.map (fun x =>
            if x.game_id == gid then { x with players := players1 } else x)
          let games2 :=
            if players1.length == 1 then
              games1.map (fun x =>
                if x.game_id == gid then { x with countdown_start := some now } else x)
            else games1
          (.joined players1.length,
            { db with
                users := debitWallet db.users uid bet
                games := games2
                cards := db.cards ++ [{ game_id := gid, user_id := uid,
                                        card_numbers := none, card_accepted := false }] })

/-- Result of the /api/select_number endpoint (bot.py lines 589-629). -/
inductive SelectResult where
  | outOfRange
  | invalidGameOrUser
  | sqlErrorUndefinedColumn
deriving Repr, DecidableEq

/-- Embeds the /api/select_number endpoint (bot.py lines 589-629).  After the
range and roster checks the handler runs

  SELECT selected_number FROM player_cards WHERE game_id = %s AND user_id = %s

but the player_cards table created by init_db (bot.py lines 153-163) has no
`selected_number` column, so psycopg2 raises an undefined-column error on
every call; the outer `except` returns a 500 response and nothing was
committed, so the state is unchanged.  The card-generation statements below
the failing query (bot.py lines 611-624) are unreachable. -/
def select_number (db : DB) (uid : Nat) (gid : String) (selected_number : Nat) :
    SelectResult × DB :=
  if ¬ (1 ≤ selected_number ∧ selected_number ≤ 100) then (.outOfRange, db)
  else
    match db.games.find? (fun g => g.game_id == gid && g.status == "waiting") with
    | none => (.invalidGameOrUser, db)
    | some g =>
      if uid ∉ g.players then (.invalidGameOrUser, db)
      else (.sqlErrorUndefinedColumn, db)

/-- Result of the /api/game_status endpoint (bot.py lines 658-708). -/
inductive StatusResult where
  | notFound
  | notInGame
  | ok (status : String) (prize : Int)
deriving Repr, DecidableEq

/-- The `auto_start` condition of game_status (bot.py line 684):
`countdown_start and len(players) >= 2 and
 (datetime.now() - countdown_start).total_seconds() >= GAME_COUNTDOWN_SECONDS`. -/
def autoStartCond (g : Game) (now : Int) : Bool :=
  match g.countdown_start with
  | none => false
  | some t => decide (2 ≤ g.players.length) && decide (GAME_COUNTDOWN_SECONDS ≤ now - t)

/-- Embeds the /api/game_status endpoint (bot.py lines 658-708): a status read
performs the lazy auto-start check and, when it fires on a waiting game,
stamps `start_time = now` and `prize_amount = bet_amount * len(players)`.
Response fields other than status and prize are reads of the row returned to
the client and are omitted. -/
def game_status (db : DB) (gid : String) (uid : Nat) (now : Int) :
    StatusResult × DB :=
  match db.games.find? (fun g => g.game_id == gid) with
  | none => (.notFound, db)
  | some g =>
    if uid ∉ g.players ∧ g.status ≠ "waiting" then (.notInGame, db)
    else if autoStartCond g now ∧ g.status = "waiting" then
      let prize := g.bet_amount * (g.players.length : Int)
      (.ok "started" prize,
        { db with games := db.games.map (fun x =>
            if x.game_id == gid then
              { x with status := "started", start_time := some now, prize_amount := prize }
            else x) })
    else (.ok g.status g.prize_amount, db)

/-- Result of the /api/call_number endpoint (bot.py lines 710-741). -/
inductive CallResult where
  | invalid
  | complete
  | diverged
  | called (number : Nat)
deriving Repr, DecidableEq

/-- The `game[2] and datetime.now() > game[2]` sub-check of call_number
(bot.py line 722): true when the game has an end_time in the past. -/
def pastEndTime (g : Game) (now : Int) : Bool :=
  match g.end_time with
  | none => false
  | some e => decide (e < now)

/-- The rejection-sampling loop of call_number (bot.py lines 727-729):
`new_number = random.randint(1, 100)` followed by re-drawing while the draw is
already among the called numbers.  `proposals` is the stream of randint
outputs; the loop returns the first fresh one and diverges (never terminates)
if the stream holds none. -/
def sampleFresh (proposals : List Nat) (numbers : List Nat) : Option Nat :=
  proposals.find? (fun n => !(numbers.contains n))

/-- Embeds the /api/call_number endpoint (bot.py lines 710-741): only a
started, not-yet-ended game may draw; with 100 numbers already called the
draw is refused (`status complete`); otherwise the first fresh randint draw
is appended to numbers_called. -/
def call_number (db : DB) (gid : String) (now : Int) (proposals : List Nat) :
    CallResult × DB :=
  match db.games.find? (fun g => g.game_id == gid) with
  | none => (.invalid, db)
  | some g =>
    if g.status ≠ "started" ∨ pastEndTime g now = true then (.invalid, db)
    else if 100 ≤ g.numbers_called.length then (.complete, db)
    else
      match sampleFresh proposals g.numbers_called with
      | none => (.diverged, db)
      | some n =>
        (.called n,
          { db with games := db.games.map (fun x =>
              if x.game_id == gid then
                { x with numbers_called := x.numbers_called ++ [n] }
              else x) })

/-- Result of the /api/check_bingo endpoint (bot.py lines 743-819). -/
inductive BingoResult where
  | alreadyWonOrMissing
  | notInGame
  | cardNotFound
  | internalError
  | kickedInvalid
  | won (prize : Int)
deriving Repr, DecidableEq

/-- Embeds the /api/check_bingo endpoint (bot.py lines 743-819).  The only
game-level precondition is that `winner_id` is NULL (no status filter in the
SELECT at line 755).  A claimant whose placeholder card row has a NULL
`card_numbers` hits `card[0].split(',')` on None (line 769), raising
AttributeError: the outer `except` returns 500 and nothing was committed.  An
invalid claim removes the claimant from the roster, deletes their card and
increments invalid_bingo_count, with no refund of the stake.  A valid claim
pays `int(bet_amount * len(players) * (1 - 0.02))` on the current roster,
finishes the game, records the winner, prize and end_time, credits the prize
and increments the score.  The winning branch fetches the winner username
after updating the game row (line 805-806); a missing user row there raises
before the commit, rolling everything back. -/
def check_bingo (db : DB) (uid : Nat) (gid : String) (now : Int) :
    BingoResult × DB :=
  match db.games.find? (fun g => g.game_id == gid) with
  | none => (.alreadyWonOrMissing, db)
  | some g =>
    match g.winner_id with
    | some _ => (.alreadyWonOrMissing, db)
    | none =>
      if uid ∉ g.players then (.notInGame, db)
      else
        match db.cards.find? (fun c => c.game_id == gid && c.user_id == uid) with
        | none => (.cardNotFound, db)
        | some c =>
          match c.card_numbers with
          | none => (.internalError, db)
          | some cs =>
            if bingo_won cs g.numbers_called = false then
              let players1 := g.players.erase uid
              (.kickedInvalid,
                { db with
                    games := db.games.map (fun x =>
                      if x.game_id == gid then { x with players := players1 } else x)
                    cards := db.cards.filter (fun x =>
                      !(x.game_id == gid && x.user_id == uid))
                    users := db.users.map (fun u =>
                      if u.user_id == uid then
                        { u with invalid_bingo_count := u.invalid_bingo_count + 1 }
                      else u) })
            else
              match db.users.find? (fun x => x.user_id == uid) with
              | none => (.internalError, db)
              | some _ =>
                let prize := prizeAfterHouseCut (g.bet_amount * (g.players.length : Int))
                (.won prize,
                  { db with
                      games := db.games.map (fun x =>
                        if x.game_id == gid then
                          { x with winner_id := some uid, prize_amount := prize,
                                   status := "finished", end_time := some now }
                        else x)
                      users := db.users.map (fun u =>
                        if u.user_id == uid then
                          { u with wallet := u.wallet + prize, score := u.score + 1 }
                        else u) })

/-- Embeds check_referral_bonus (bot.py lines 201-225).  The function counts
the caller's uncredited referral rows; when the count reaches
REFERRAL_THRESHOLD it credits `(count / 20) * 10` to the wallet and then runs

  UPDATE referrals SET bonus_credited = TRUE WHERE referrer_id = %s LIMIT %s

PostgreSQL has no LIMIT clause on UPDATE, so psycopg2 raises a syntax error on
this statement on every execution; the `except` branch returns 0 and, because
`conn.commit()` was never reached, the wallet credit issued just before is
rolled back when the pooled connection is released.  The observable behaviour
is therefore: return 0 and leave the database unchanged, on every input. -/
def check_referral_bonus (db : DB) (uid : Nat) : Int × DB :=
  let referral_count :=
    (db.referrals.filter (fun r => r.referrer_id == uid && !r.bonus_credited)).length
  if REFERRAL_THRESHOLD ≤ referral_count then
    (0, db)
  else (0, db)

/-- The uncredited-referral count read by check_referral_bonus
(`SELECT COUNT(*) FROM referrals WHERE referrer_id = %s AND bonus_credited = FALSE`). -/
def uncreditedReferralCount (db : DB) (uid : Nat) : Nat :=
  (db.referrals.filter (fun r => r.referrer_id == uid && !r.bonus_credited)).length

/-- The `bonus_amount = (referral_count // REFERRAL_THRESHOLD) * REFERRAL_BONUS`
value computed at bot.py lines 211-212, i.e. the amount the award branch would
credit if its marking statement did not raise. -/
def intendedBonusAmount (referral_count : Nat) : Int :=
  ((referral_count / REFERRAL_THRESHOLD : Nat) : Int) * REFERRAL_BONUS

/-- Result of the /api/request_withdrawal endpoint (bot.py lines 846-874). -/
inductive WithdrawRequestResult where
  | invalidAmount
  | insufficientFunds
  | requested (withdraw_id : String) (amount : Int)
deriving Repr, DecidableEq

/-- Embeds the /api/request_withdrawal endpoint (bot.py lines 846-874): the
amount must be at least MINIMUM_WITHDRAWAL and covered by the wallet; on
success the wallet is debited immediately (escrow) and a pending withdrawal
row is recorded.  The randomly generated withdraw_id is passed in. -/
def request_withdrawal (db : DB) (uid : Nat) (amount : Int) (method wid : String) :
    WithdrawRequestResult × DB :=
  if amount < MINIMUM_WITHDRAWAL then (.invalidAmount, db)
  else
    match db.users.find? (fun u => u.user_id == uid) with
    | none => (.insufficientFunds, db)
    | some u =>
      if u.wallet < amount then (.insufficientFunds, db)
      else
        (.requested wid amount,
          { db with
              users := debitWallet db.users uid amount
              withdrawals := db.withdrawals ++
                [{ withdraw_id := wid, user_id := uid, amount := amount,
                   status := "pending", method := method, admin_note := "" }] })

/-- Result of an admin sub-action dispatched by /api/admin_actions
(bot.py lines 396-488). -/
inductive AdminActionResult where
  | unauthorized
  | failed (reason : String)
  | started (prize : Int)
  | ended
  | verified (user_id : Nat) (amount : Int)
  | kicked
  | approved (user_id : Nat) (amount : Int)
  | rejected (user_id : Nat) (amount : Int)
  | internalError
deriving Repr, DecidableEq

/-- Embeds start_game_action (bot.py lines 429-442): an immediate start of a
waiting game with at least two players and a matching bet amount. -/
def start_game_action (db : DB) (gid : String) (bet : Int) (now : Int) :
    AdminActionResult × DB :=
  match db.games.find? (fun g => g.game_id == gid && g.status == "waiting") with
  | none => (.failed "Game not found", db)
  | some g =>
    if g.players.length < 2 then (.failed "At least 2 players required", db)
    else if g.bet_amount ≠ bet then (.failed "Bet amount mismatch", db)
    else
      let prize := bet * (g.players.length : Int)
      (.started prize,
        { db with games := db.games.map (fun x =>
            if x.game_id == gid then
              { x with status := "started", start_time := some now, prize_amount := prize }
            else x) })

/-- Embeds end_game_action (bot.py lines 444-451): force a started game to
finished with no payout. -/
def end_game_action (db : DB) (gid : String) (now : Int) : AdminActionResult × DB :=
  if db.games.any (fun g => g.game_id == gid && g.status == "started") then
    (.ended,
      { db with games := db.games.map (fun x =>
          if x.game_id == gid && x.status == "started" then
            { x with status := "finished", end_time := some now }
          else x) })
  else (.failed "Game not found or not started", db)

/-- Embeds verify_payment_action (bot.py lines 453-466): a pending transaction
is marked verified and its amount credited; if the depositor has an uncredited
referral row, its referrer receives REFERRAL_BONUS and every referral row of
that referee is marked credited. -/
def verify_payment_action (db : DB) (txid : String) : AdminActionResult × DB :=
  match db.transactions.find? (fun t => t.tx_id == txid && t.status == "pending") with
  | none => (.failed "Transaction not found or already processed", db)
  | some t =>
    let txs := db.transactions.map (fun x =>
      if x.tx_id == txid then { x with status := "verified" } else x)
    let users1 := creditWallet db.users t.user_id t.amount
    match db.referrals.find? (fun r => r.referee_id == t.user_id && !r.bonus_credited) with
    | none =>
      (.verified t.user_id t.amount, { db with users := users1, transactions := txs })
    | some r =>
      (.verified t.user_id t.amount,
        { db with
            users := creditWallet users1 r.referrer_id REFERRAL_BONUS
            transactions := txs
            referrals := db.referrals.map (fun x =>
              if x.referee_id == t.user_id then { x with bonus_credited := true } else x) })

/-- Embeds kick_user_action (bot.py lines 468-472): delete the user row. -/
def kick_user_action (db : DB) (target : Nat) : AdminActionResult × DB :=
  if db.users.any (fun u => u.user_id == target) then
    (.kicked, { db with users := db.users.filter (fun u => !(u.user_id == target)) })
  else (.failed "User not found", db)

/-- Embeds manage_withdrawal_action (bot.py lines 474-488).  On a pending
withdrawal the handler reads the current wallet of the withdrawal owner;
`approve` debits the amount (again: the request already debited it) provided
the wallet still covers it, while `reject` merely flips the status and issues
no refund.  An approve with an insufficient wallet falls through to the
final `Withdrawal not found or already processed` response.  A missing user
row makes `cursor.fetchone()[0]` raise, rolling back. -/
def manage_withdrawal_action (db : DB) (wid : String) (action_type note : String) :
    AdminActionResult × DB :=
  match db.withdrawals.find? (fun w => w.withdraw_id == wid && w.status == "pending") with
  | none => (.failed "Withdrawal not found or already processed", db)
  | some w =>
    match db.users.find? (fun u => u.user_id == w.user_id) with
    | none => (.internalError, db)
    | some u =>
      if action_type = "approve" ∧ w.amount ≤ u.wallet then
        (.approved w.user_id w.amount,
          { db with
              users := debitWallet db.users w.user_id w.amount
              withdrawals := db.withdrawals.map (fun x =>
                if x.withdraw_id == wid then
                  { x with status := "approved", admin_note := note }
                else x) })
      else if action_type = "reject" then
        (.rejected w.user_id w.amount,
          { db with withdrawals := db.withdrawals.map (fun x =>
              if x.withdraw_id == wid then
                { x with status := "rejected", admin_note := note }
              else x) })
      else (.failed "Withdrawal not found or already processed", db)

/-- The admin sub-action requested through /api/admin_actions: the `action`
string of the request body together with its operation-specific fields. -/
inductive AdminCommand where
  | startGame (gid : String) (bet : Int) (now : Int)
  | endGame (gid : String) (now : Int)
  | verifyPayment (txid : String)
  | kickUser (target : Nat)
  | manageWithdrawal (wid : String) (action_type note : String)
deriving Repr, DecidableEq

/-- The dispatch table of /api/admin_actions (bot.py lines 411-418). -/
def run_admin_command (db : DB) (cmd : AdminCommand) : AdminActionResult × DB :=
  match cmd with
  | .startGame gid bet now => start_game_action db gid bet now
  | .endGame gid now => end_game_action db gid now
  | .verifyPayment txid => verify_payment_action db txid
  | .kickUser target => kick_user_action db target
  | .manageWithdrawal wid a note => manage_withdrawal_action db wid a note

/-- Embeds the /api/admin_actions endpoint (bot.py lines 396-427): the
requester's user row must exist and carry role 'admin'
(`SELECT role FROM users WHERE user_id = %s`), otherwise the request is
rejected as unauthorized before any sub-action runs.  Sub-actions returning a
non-200 status are not committed; every such sub-action path above already
leaves the state unchanged. -/
def admin_actions (db : DB) (uid : Nat) (cmd : AdminCommand) :
    AdminActionResult × DB :=
  match db.users.find? (fun u => u.user_id == uid) with
  | none => (.unauthorized, db)
  | some u =>
    if u.role = "admin" then run_admin_command db cmd
    else (.unauthorized, db)

/-- Result of the /api/add_admin endpoint (bot.py lines 340-364). -/
inductive AddAdminResult where
  | unauthorized
  | success
  | failed
deriving Repr, DecidableEq

/-- Embeds the /api/add_admin endpoint (bot.py lines 340-364): the requester's
user row must have role 'admin'; then
`UPDATE users SET role = 'admin' WHERE user_id = %s AND role != 'admin'`
promotes the target if it exists and is not already an admin. -/
def add_admin (db : DB) (uid target : Nat) : AddAdminResult × DB :=
  match db.users.find? (fun u => u.user_id == uid) with
  | none => (.unauthorized, db)
  | some u =>
    if u.role ≠ "admin" then (.unauthorized, db)
    else if db.users.any (fun t => t.user_id == target && t.role != "admin") then
      (.success,
        { db with users := db.users.map (fun t =>
            if t.user_id == target && t.role != "admin" then { t with role := "admin" } else t) })
    else (.failed, db)

/-- Result of the /api/create_game endpoint (bot.py lines 490-514). -/
inductive CreateGameResult where
  | invalidParams
  | unauthorized
  | created (game_id : String)
deriving Repr, DecidableEq

/-- Embeds the /api/create_game endpoint (bot.py lines 490-514).  The bet must
be one of BET_OPTIONS; authorization checks membership of the requester id in
the ADMIN_IDS environment list (`if int(user_id) not in ADMIN_IDS`), NOT the
role column of the users table.  The randomly generated game id is passed in. -/
def create_game (adminIds : List Nat) (db : DB) (uid : Nat) (bet : Int) (gid : String) :
    CreateGameResult × DB :=
  if bet ∉ BET_OPTIONS then (.invalidParams, db)
  else if uid ∉ adminIds then (.unauthorized, db)
  else
    (.created gid,
      { db with games := db.games ++
          [{ game_id := gid, players := [], numbers_called := [], status := "waiting",
             start_time := none, end_time := none, winner_id := none,
             prize_amount := 0, bet_amount := bet, countdown_start := none }] })

/-! ## Operation sequences over the store

The wallet-touching operations named by the specification, bundled so that
properties of arbitrary interleavings can be stated.  Each constructor carries
the request parameters of the corresponding endpoint. -/

/-- One core operation: joining a game, claiming bingo (which credits the
prize on a valid claim), verifying a deposit, running the referral-bonus
check, requesting a withdrawal, and resolving a withdrawal. -/
inductive Op where
  | join (uid : Nat) (gid : String) (bet : Int) (now : Int)
  | bingoClaim (uid : Nat) (gid : String) (now : Int)
  | verifyDeposit (txid : String)
  | referralBonus (uid : Nat)
  | withdrawRequest (uid : Nat) (amount : Int) (method wid : String)
  | withdrawResolve (wid action_type note : String)
deriving Repr, DecidableEq

/-- State transition of one core operation: the database component of the
corresponding endpoint embedding. -/
def step (db : DB) (op : Op) : DB :=
  match op with
  | .join uid gid bet now => (join_game db uid gid bet now).2
  | .bingoClaim uid gid now => (check_bingo db uid gid now).2
  | .verifyDeposit txid => (verify_payment_action db txid).2
  | .referralBonus uid => (check_referral_bonus db uid).2
  | .withdrawRequest uid amount method wid => (request_withdrawal db uid amount method wid).2
  | .withdrawResolve wid a note => (manage_withdrawal_action db wid a note).2

/-- Well-formedness of the store used for the balance invariant: user ids are
unique (user_id is the PRIMARY KEY of the users table), wallets are
non-negative, and the bet amounts and deposit amounts already on file are
non-negative (games are created with bets from BET_OPTIONS and transactions
with amounts of at least MINIMUM_DEPOSIT, both positive). -/
def DBInv (db : DB) : Prop :=
  (db.users.map (fun u => u.user_id)).Nodup ∧
  (∀ u ∈ db.users, 0 ≤ u.wallet) ∧
  (∀ g ∈ db.games, 0 ≤ g.bet_amount) ∧
  (∀ t ∈ db.transactions, 0 ≤ t.amount)

instance (db : DB) : Decidable (DBInv db) := by
  unfold DBInv
  infer_instance

/-! ## Concrete instances used by the individual results -/

/-- A 25-number card in stored (ascending) order, as produced by
`sorted(random.sample(range(1, 101), 25))`. -/
def c1_card : List Nat :=
  [1, 2, 3, 4, 5, 6, 7, 8, 9, 10, 11, 12, 13, 14, 15, 16, 17, 18, 19, 20,
   21, 22, 23, 24, 25]

/-- Twenty of the 25 card numbers, missing one from every row, one from every
column and one from each diagonal of the 5x5 grid (the missing numbers are
1, 9, 13, 17 and 25): a scattered non-winning draw. -/
def c1_drawn : List Nat :=
  [2, 3, 4, 5, 6, 7, 8, 10, 11, 12, 14, 15, 16, 18, 19, 20, 21, 22, 23, 24]

/-- Store for the C2 scenario: two users holding 180 and 250 ETB. -/
def c2_db : DB :=
  { users := [{ user_id := 1, wallet := 180, score := 0, role := "user", invalid_bingo_count := 0 },
              { user_id := 2, wallet := 250, score := 0, role := "user", invalid_bingo_count := 0 }]
    games := [], cards := [], transactions := [], withdrawals := [], referrals := [] }

/-- c2_db after user 1 requests a withdrawal of 100 (wallet 180 to 80). -/
def c2_db1 : DB := (request_withdrawal c2_db 1 100 "telebirr" "WD1").2

/-- c2_db1 after user 2 requests a withdrawal of 100 (wallet 250 to 150). -/
def c2_db2 : DB := (request_withdrawal c2_db1 2 100 "telebirr" "WD2").2

/-- Store for the C3 witness: one user with 150 ETB. -/
def c3_db : DB :=
  { users := [{ user_id := 1, wallet := 150, score := 0, role := "user", invalid_bingo_count := 0 }]
    games := [], cards := [], transactions := [], withdrawals := [], referrals := [] }

/-- Game row for the C4 witness: a started two-player game with five numbers
called and no winner yet. -/
def c4_game : Game :=
  { game_id := "G4", players := [1, 2], numbers_called := [1, 2, 3, 4, 5],
    status := "started", start_time := some 0, end_time := none, winner_id := none,
    prize_amount := 0, bet_amount := 50, countdown_start := some 0 }

/-- Card row of user 1 in the C4 witness: the 25 stored numbers 1..25. -/
def c4_cardRow : PlayerCard :=
  { game_id := "G4", user_id := 1, card_numbers := some c1_card, card_accepted := true }

/-- User row of the claimant in the C4 witness. -/
def c4_user : User :=
  { user_id := 1, wallet := 0, score := 0, role := "user", invalid_bingo_count := 0 }

/-- Store for the C4 witness. -/
def c4_db : DB :=
  { users := [c4_user,
              { user_id := 2, wallet := 0, score := 0, role := "user", invalid_bingo_count := 0 }]
    games := [c4_game]
    cards := [c4_cardRow,
              { game_id := "G4", user_id := 2, card_numbers := some c1_card, card_accepted := true }]
    transactions := [], withdrawals := [], referrals := [] }

/-- Game row with a recorded winner, for the second part of the C4 witness. -/
def c4_game_won : Game := { c4_game with winner_id := some 1, status := "finished" }

/-- Store whose game already has a winner. -/
def c4_db_won : DB := { c4_db with games := [c4_game_won] }

/-- Store for the C5 scenario: user 1 has exactly 20 uncredited referrals and
100 ETB on the wallet. -/
def c5_db : DB :=
  { users := [{ user_id := 1, wallet := 100, score := 0, role := "user", invalid_bingo_count := 0 }]
    games := [], cards := [], transactions := [], withdrawals := []
    referrals := (List.range 20).map (fun i =>
      { referrer_id := 1, referee_id := 100 + i, bonus_credited := false }) }

/-- Store for the C6 scenario: a waiting game whose sole joiner holds the
placeholder card row inserted by join_game (NULL card_numbers). -/
def c6_db : DB :=
  { users := [{ user_id := 7, wallet := 0, score := 0, role := "user", invalid_bingo_count := 0 }]
    games := [{ game_id := "G1", players := [7], numbers_called := [], status := "waiting",
                start_time := none, end_time := none, winner_id := none,
                prize_amount := 0, bet_amount := 50, countdown_start := some 0 }]
    cards := [{ game_id := "G1", user_id := 7, card_numbers := none, card_accepted := false }]
    transactions := [], withdrawals := [], referrals := [] }

/-- Game row for the C7 witness: started, three numbers called. -/
def c7_game : Game :=
  { game_id := "G7", players := [1, 2], numbers_called := [3, 14, 15],
    status := "started", start_time := some 0, end_time := none, winner_id := none,
    prize_amount := 100, bet_amount := 50, countdown_start := some 0 }

/-- Store for the first C7 witness part. -/
def c7_db : DB :=
  { users := [], games := [c7_game], cards := [], transactions := [], withdrawals := [],
    referrals := [] }

/-- Game row for the exhaustion part of the C7 witness: all 100 numbers have
been called. -/
def c7_game_full : Game :=
  { c7_game with game_id := "G7F", numbers_called := (List.range 100).map (fun i => i + 1) }

/-- Store for the exhaustion part of the C7 witness. -/
def c7_db_full : DB := { c7_db with games := [c7_game_full] }

/-- Game row for the C8 witness: waiting, two players, countdown started at
time 0. -/
def c8_game : Game :=
  { game_id := "G8", players := [1, 2], numbers_called := [], status := "waiting",
    start_time := none, end_time := none, winner_id := none,
    prize_amount := 0, bet_amount := 50, countdown_start := some 0 }

/-- Store for the C8 witness. -/
def c8_db : DB :=
  { users := [], games := [c8_game], cards := [], transactions := [], withdrawals := [],
    referrals := [] }

/-- Single-player waiting game for the never-auto-starts part of C8. -/
def c8_game_solo : Game := { c8_game with game_id := "G8S", players := [1] }

/-- Store holding the single-player game. -/
def c8_db_solo : DB := { c8_db with games := [c8_game_solo] }

/-- Store for the C9 results: user 7 has role 'user' but sits in the
ADMIN_IDS environment list. -/
def c9_db : DB :=
  { users := [{ user_id := 7, wallet := 0, score := 0, role := "user", invalid_bingo_count := 0 }]
    games := [], cards := [], transactions := [], withdrawals := [], referrals := [] }

/-- The ADMIN_IDS environment list for the C9 results. -/
def c9_adminIds : List Nat := [7]

/-- Store for the C10 counterexample: a waiting two-player game with no
numbers called; claimant 7 still holds the NULL placeholder card. -/
def c10_db : DB :=
  { users := [{ user_id := 7, wallet := 30, score := 0, role := "user", invalid_bingo_count := 0 },
              { user_id := 8, wallet := 30, score := 0, role := "user", invalid_bingo_count := 0 }]
    games := [{ game_id := "G1", players := [7, 8], numbers_called := [], status := "waiting",
                start_time := none, end_time := none, winner_id := none,
                prize_amount := 0, bet_amount := 50, countdown_start := some 0 }]
    cards := [{ game_id := "G1", user_id := 7, card_numbers := none, card_accepted := false },
              { game_id := "G1", user_id := 8, card_numbers := none, card_accepted := false }]
    transactions := [], withdrawals := [], referrals := [] }

/-- Game row for the C10 witness: waiting, no numbers called, no winner. -/
def c10_game : Game :=
  { game_id := "GW", players := [7, 8], numbers_called := [], status := "waiting",
    start_time := none, end_time := none, winner_id := none,
    prize_amount := 0, bet_amount := 50, countdown_start := some 0 }

/-- Card row of claimant 7 in the C10 witness: a generated 25-number card. -/
def c10_cardRow : PlayerCard :=
  { game_id := "GW", user_id := 7, card_numbers := some c1_card, card_accepted := true }

/-- User row of claimant 7 in the C10 witness. -/
def c10_user : User :=
  { user_id := 7, wallet := 30, score := 0, role := "user", invalid_bingo_count := 0 }

/-- Store for the C10 witness. -/
def c10w_db : DB :=
  { users := [c10_user,
              { user_id := 8, wallet := 30, score := 0, role := "user", invalid_bingo_count := 0 }]
    games := [c10_game]
    cards := [c10_cardRow,
              { game_id := "GW", user_id := 8, card_numbers := some c1_card, card_accepted := true }]
    transactions := [], withdrawals := [], referrals := [] }

/-! ## Helper lemmas -/

theorem user_key_unique {users : List User}
    (hnd : (users.map (fun u => u.user_id)).Nodup)
    {u0 u : User} (h0 : u0 ∈ users) (h1 : u ∈ users)
    (hkey : u.user_id = u0.user_id) : u = u0 := by
  induction users with
  | nil => simp at h0
  | cons a t ih =>
    rw [List.map_cons, List.nodup_cons] at hnd
    rcases List.mem_cons.mp h0 with rfl | h0t
    · rcases List.mem_cons.mp h1 with rfl | h1t
      · rfl
      · exact absurd (List.mem_map.mpr ⟨u, h1t, hkey⟩) hnd.1
    · rcases List.mem_cons.mp h1 with rfl | h1t
      · exact absurd (List.mem_map.mpr ⟨u0, h0t, hkey.symm⟩) hnd.1
      · exact ih hnd.2 h0t h1t

theorem map_user_id_map (users : List User) (f : User → User)
    (hf : ∀ u, (f u).user_id = u.user_id) :
    (users.map f).map (fun u => u.user_id) = users.map (fun u => u.user_id) := by
  induction users with
  | nil => rfl
  | cons a t ih => simp only [List.map_cons, hf, ih]

theorem wallets_nonneg_map (users : List User) (f : User → User)
    (hf : ∀ u, 0 ≤ u.wallet → 0 ≤ (f u).wallet)
    (hw : ∀ u ∈ users, 0 ≤ u.wallet) :
    ∀ v ∈ users.map f, 0 ≤ v.wallet := by
  intro v hv
  rcases List.mem_map.mp hv with ⟨u, hu, rfl⟩
  exact hf u (hw u hu)

theorem debitWallet_keys (users : List User) (uid : Nat) (a : Int) :
    (debitWallet users uid a).map (fun u => u.user_id) =
      users.map (fun u => u.user_id) := by
  apply map_user_id_map
  intro u
  split <;> rfl

theorem creditWallet_keys (users : List User) (uid : Nat) (a : Int) :
    (creditWallet users uid a).map (fun u => u.user_id) =
      users.map (fun u => u.user_id) := by
  apply map_user_id_map
  intro u
  split <;> rfl

theorem debitWallet_wallet_nonneg (users : List User) (uid : Nat) (a : Int)
    (hw : ∀ u ∈ users, 0 ≤ u.wallet)
    (hb : ∀ u ∈ users, u.user_id = uid → a ≤ u.wallet) :
    ∀ v ∈ debitWallet users uid a, 0 ≤ v.wallet := by
  unfold debitWallet
  intro v hv
  rcases List.mem_map.mp hv with ⟨u, hu, rfl⟩
  by_cases hid : (u.user_id == uid) = true
  · have h1 := hb u hu (by simpa using hid)
    simp only [hid, if_true]
    omega
  · simp only [hid, if_false]
    exact hw u hu

theorem creditWallet_wallet_nonneg (users : List User) (uid : Nat) (a : Int)
    (ha : 0 ≤ a) (hw : ∀ u ∈ users, 0 ≤ u.wallet) :
    ∀ v ∈ creditWallet users uid a, 0 ≤ v.wallet := by
  apply wallets_nonneg_map
  · intro u hu
    by_cases hid : (u.user_id == uid) = true
    · rw [if_pos hid]
      show 0 ≤ u.wallet + a
      omega
    · rw [if_neg hid]
      exact hu
  · exact hw

theorem guarded_debit_bound (users : List User) (uid : Nat) (a : Int) (u0 : User)
    (hnd : (users.map (fun u => u.user_id)).Nodup)
    (hf : users.find? (fun u => u.user_id == uid) = some u0)
    (hw : a ≤ u0.wallet) :
    ∀ u ∈ users, u.user_id = uid → a ≤ u.wallet := by
  intro u hu hkey
  have h0 : u0 ∈ users := List.mem_of_find?_eq_some hf
  have h0key : u0.user_id = uid := by simpa using List.find?_some hf
  have heq : u = u0 := user_key_unique hnd h0 hu (by rw [hkey, h0key])
  rw [heq]
  exact hw

theorem bets_nonneg_map (games : List Game) (f : Game → Game)
    (hf : ∀ g, (f g).bet_amount = g.bet_amount)
    (hb : ∀ g ∈ games, 0 ≤ g.bet_amount) :
    ∀ x ∈ games.map f, 0 ≤ x.bet_amount := by
  intro x hx
  rcases List.mem_map.mp hx with ⟨g, hg, rfl⟩
  rw [hf]
  exact hb g hg

theorem txs_nonneg_map (txs : List Transaction) (f : Transaction → Transaction)
    (hf : ∀ t, (f t).amount = t.amount)
    (ht : ∀ t ∈ txs, 0 ≤ t.amount) :
    ∀ x ∈ txs.map f, 0 ≤ x.amount := by
  intro x hx
  rcases List.mem_map.mp hx with ⟨t, htm, rfl⟩
  rw [hf]
  exact ht t htm

theorem prizeAfterHouseCut_nonneg (t : Int) (h : 0 ≤ t) : 0 ≤ prizeAfterHouseCut t := by
  unfold prizeAfterHouseCut
  have h98 : 0 ≤ t * 98 := by positivity
  exact Int.ediv_nonneg h98 (by norm_num)

theorem find?_map_of_pred_eq {α : Type} (l : List α) (p : α → Bool) (f : α → α)
    (hf : ∀ a, p (f a) = p a) :
    (l.map f).find? p = (l.find? p).map f := by
  induction l with
  | nil => rfl
  | cons a t ih =>
    cases hpa : p a with
    | true => simp [List.find?_cons, hf, hpa]
    | false => simp [List.find?_cons, hf, hpa, ih]

theorem marked_nil (cs : List Nat) : marked cs [] = [] := by
  unfold marked
  induction cs.dedup with
  | nil => rfl
  | cons a t ih => simp [ih]

theorem bingo_won_nil (cs : List Nat) : bingo_won cs [] = false := by
  simp only [bingo_won, marked_nil]
  decide

/-! ## Results for the individual claims -/

/-- C1: the claim states that the win evaluation in check_bingo holds exactly
when a full row, full column, or a diagonal of the 5x5 grid (in stored order)
is contained in the drawn numbers, and in particular is false for a scattered
non-winning 20-of-25 draw.  The code disagrees: on the card 1..25 with the 20
numbers of c1_drawn called (one number missing from every row, column and
diagonal), `bingo_won` — the predicate computed at bot.py lines 769-778 —
returns true, while the specified predicate `evaluateWin_spec` returns false.
The undrawn-card and one-row-drawn test cases of the claim do agree. -/
theorem C1_win_predicate_divergence :
    bingo_won c1_card [] = false ∧
    bingo_won c1_card [1, 2, 3, 4, 5] = true ∧
    evaluateWin_spec c1_card [1, 2, 3, 4, 5] = true ∧
    bingo_won c1_card c1_drawn = true ∧
    evaluateWin_spec c1_card c1_drawn = false := by
  decide

/-- C2: the claim states that approving a pending withdrawal causes no further
balance change and rejecting credits the amount back.  The code does the
opposite on both counts: rejecting a withdrawal of 100 requested from a wallet
of 180 leaves the wallet at 80 (no refund of the escrow debit), and approving
a withdrawal of 100 requested from a wallet of 250 debits the amount a second
time (150 to 50). -/
theorem C2_withdrawal_resolution_divergence :
    walletOf c2_db2 1 = some 80 ∧
    walletOf c2_db2 2 = some 150 ∧
    (manage_withdrawal_action c2_db2 "WD1" "reject" "").1 = .rejected 1 100 ∧
    walletOf (manage_withdrawal_action c2_db2 "WD1" "reject" "").2 1 = some 80 ∧
    withdrawalStatusOf (manage_withdrawal_action c2_db2 "WD1" "reject" "").2 "WD1" =
      some "rejected" ∧
    (manage_withdrawal_action c2_db2 "WD2" "approve" "").1 = .approved 2 100 ∧
    walletOf (manage_withdrawal_action c2_db2 "WD2" "approve" "").2 2 = some 50 := by
  decide

/-- C5: the claim states that check_referral_bonus credits
`floor(count/20)*10` once 20 uncredited referrals accumulate and marks
`floor(count/20)*20` rows credited.  On a store where user 1 has exactly 20
uncredited referrals the count is 20 and the award branch would compute a
bonus of 10, but the function returns 0 and leaves the store untouched: its
marking statement `UPDATE referrals ... LIMIT %s` is invalid PostgreSQL, so
the branch raises and the handler returns 0 with nothing committed. -/
theorem C5_referral_bonus_divergence :
    uncreditedReferralCount c5_db 1 = 20 ∧
    intendedBonusAmount 20 = 10 ∧
    check_referral_bonus c5_db 1 = (0, c5_db) ∧
    walletOf c5_db 1 = some 100 := by
  decide

/-- C6: the claim states that a second select-number attempt for a (game,
user) pair fails with a "Number already selected" reason, the first having
stored a card.  In the code every select_number call — first or second — dies
on `SELECT selected_number FROM player_cards ...`, a column that does not
exist in the schema of init_db, and returns a 500 with no card stored: here
roster member 7 of waiting game G1 (holding the NULL placeholder card row
from join_game) gets the undefined-column failure and the store is unchanged. -/
theorem C6_select_number_divergence :
    select_number c6_db 7 "G1" 5 = (.sqlErrorUndefinedColumn, c6_db) ∧
    cardOf c6_db "G1" 7 =
      some { game_id := "G1", user_id := 7, card_numbers := none,
             card_accepted := false } := by
  decide

/-- C9 counterexample: the claim states that every admin-only mutation
endpoint succeeds only for a requester whose User row has role 'admin'.
create_game instead consults the ADMIN_IDS environment list: user 7, whose
row carries role 'user', successfully creates a game because 7 is listed in
ADMIN_IDS. -/
theorem C9_create_game_counterexample :
    (create_game c9_adminIds c9_db 7 50 "G1").1 = .created "G1" ∧
    (userOf c9_db 7).map (fun u => u.role) = some "user" := by
  decide

/-- C10 counterexample: the claim states that a bingo claim by any roster
member of a waiting game is processed and always judged invalid, removing the
claimant, deleting the card and incrementing the invalid counter.  Roster
member 7, whose placeholder card row still has NULL card_numbers, instead
gets an internal error (`card[0].split(',')` on None raises) and nothing
changes: the claimant stays on the roster and the counter stays 0. -/
theorem C10_null_card_counterexample :
    (check_bingo c10_db 7 "G1" 0).1 = .internalError ∧
    (check_bingo c10_db 7 "G1" 0).2 = c10_db ∧
    invalidCountOf (check_bingo c10_db 7 "G1" 0).2 7 = some 0 ∧
    (gameOf c10_db "G1").map (fun g => g.players) = some [7, 8] := by
  decide

/-- C9 amended: verify payment, approve/reject withdrawal, kick user and
start/end game (all dispatched through /api/admin_actions) as well as promote
admin (/api/add_admin) require the requester's User row to carry role 'admin'
and answer unauthorized, without state change, for every other requester;
/api/create_game instead requires the requester's id to belong to the static
ADMIN_IDS environment list, regardless of the role column: outsiders get
unauthorized (or an invalid-parameter failure) with no state change, and any
listed id with a valid bet succeeds. -/
theorem C9_admin_gate_amended :
    (∀ (db : DB) (uid : Nat) (cmd : AdminCommand),
       (userOf db uid).map (fun u => u.role) ≠ some "admin" →
       admin_actions db uid cmd = (.unauthorized, db)) ∧
    (∀ (db : DB) (uid target : Nat),
       (userOf db uid).map (fun u => u.role) ≠ some "admin" →
       add_admin db uid target = (.unauthorized, db)) ∧
    (∀ (adminIds : List Nat) (db : DB) (uid : Nat) (bet : Int) (gid : String),
       uid ∉ adminIds →
       (create_game adminIds db uid bet gid).2 = db ∧
       ((create_game adminIds db uid bet gid).1 = .invalidParams ∨
        (create_game adminIds db uid bet gid).1 = .unauthorized)) ∧
    (∀ (adminIds : List Nat) (db : DB) (uid : Nat) (bet : Int) (gid : String),
       bet ∈ BET_OPTIONS → uid ∈ adminIds →
       (create_game adminIds db uid bet gid).1 = .created gid) := by
  refine ⟨?_, ?_, ?_, ?_⟩
  · intro db uid cmd hrole
    unfold admin_actions
    cases hf : db.users.find? (fun u => u.user_id == uid) with
    | none => rfl
    | some u =>
      have : u.role ≠ "admin" := by
        intro hcontra
        exact hrole (by simp [userOf, hf, hcontra])
      simp [this]
  · intro db uid target hrole
    unfold add_admin
    cases hf : db.users.find? (fun u => u.user_id == uid) with
    | none => rfl
    | some u =>
      have : u.role ≠ "admin" := by
        intro hcontra
        exact hrole (by simp [userOf, hf, hcontra])
      simp [this]
  · intro adminIds db uid bet gid hnot
    unfold create_game
    by_cases hbet : bet ∉ BET_OPTIONS
    · simp [hbet]
    · simp [hbet, hnot]
  · intro adminIds db uid bet gid hbet hmem
    unfold create_game
    simp [hbet, hmem]

/-- C9 witness: the amended gates applied at concrete stores: a non-admin-role
requester is turned away from admin_actions and add_admin, a requester outside
ADMIN_IDS cannot create a game, and the listed (but role 'user') id 7 can. -/
theorem C9_admin_gate_amended_witness :
    admin_actions c9_db 7 (.kickUser 7) = (.unauthorized, c9_db) ∧
    add_admin c9_db 7 7 = (.unauthorized, c9_db) ∧
    (create_game c9_adminIds c9_db 9 50 "G2").2 = c9_db ∧
    (create_game c9_adminIds c9_db 7 50 "G3").1 = .created "G3" :=
  ⟨C9_admin_gate_amended.1 c9_db 7 (.kickUser 7) (by decide),
   C9_admin_gate_amended.2.1 c9_db 7 7 (by decide),
   (C9_admin_gate_amended.2.2.1 c9_adminIds c9_db 9 50 "G2" (by decide)).1,
   C9_admin_gate_amended.2.2.2 c9_adminIds c9_db 7 50 "G3" (by decide) (by decide)⟩

/-- A game row returned by a find? on game_id satisfies the key equation. -/
theorem game_key_eq {games : List Game} {gid : String} {g : Game}
    (h : games.find? (fun x => x.game_id == gid) = some g) :
    (g.game_id == gid) = true := by
  have h1 := List.find?_some h
  exact h1

/-- A user row returned by a find? on user_id satisfies the key equation. -/
theorem user_key_eq {users : List User} {uid : Nat} {u : User}
    (h : users.find? (fun x => x.user_id == uid) = some u) :
    (u.user_id == uid) = true := by
  have h1 := List.find?_some h
  exact h1

/-- Helper for reading a row back after an UPDATE that does not touch the
game_id column: find? by game_id commutes with the row-mapping. -/
theorem find?_game_map (games : List Game) (gid : String) (f : Game → Game)
    (hf : ∀ g, (f g).game_id = g.game_id) :
    (games.map f).find? (fun x => x.game_id == gid) =
      (games.find? (fun x => x.game_id == gid)).map f := by
  apply find?_map_of_pred_eq
  intro a
  rw [hf]

/-- Helper for reading a user row back after an UPDATE that does not touch the
user_id column. -/
theorem find?_user_map (users : List User) (uid : Nat) (f : User → User)
    (hf : ∀ u, (f u).user_id = u.user_id) :
    (users.map f).find? (fun x => x.user_id == uid) =
      (users.find? (fun x => x.user_id == uid)).map f := by
  apply find?_map_of_pred_eq
  intro a
  rw [hf]

/-- A row filtered out by its own defining predicate can no longer be found. -/
theorem find?_filter_not_none {α : Type} (l : List α) (p : α → Bool) :
    (l.filter (fun a => !(p a))).find? p = none := by
  rw [List.find?_eq_none]
  intro a ha
  have h2 := (List.mem_filter.mp ha).2
  simp only [Bool.not_eq_true'] at h2
  simp [h2]

/-- C7: on a started, not-yet-ended game, call_number returns the first fresh
randint draw — a number in 1..100 absent from the drawn sequence — and appends
it; once 100 numbers have been drawn the call answers `complete` and leaves
the store unchanged.  The hypotheses on `proposals` say that the randint
stream produces values in 1..100 and that the rejection loop terminates at
draw `n`. -/
theorem C7_call_number_fresh_and_exhaustion :
    (∀ (db : DB) (gid : String) (now : Int) (proposals : List Nat) (g : Game) (n : Nat),
       gameOf db gid = some g →
       g.status = "started" →
       pastEndTime g now = false →
       g.numbers_called.length < 100 →
       (∀ p ∈ proposals, 1 ≤ p ∧ p ≤ 100) →
       sampleFresh proposals g.numbers_called = some n →
       (call_number db gid now proposals).1 = .called n ∧
       1 ≤ n ∧ n ≤ 100 ∧
       g.numbers_called.contains n = false ∧
       (gameOf (call_number db gid now proposals).2 gid).map (fun x => x.numbers_called) =
         some (g.numbers_called ++ [n])) ∧
    (∀ (db : DB) (gid : String) (now : Int) (proposals : List Nat) (g : Game),
       gameOf db gid = some g →
       g.status = "started" →
       pastEndTime g now = false →
       100 ≤ g.numbers_called.length →
       call_number db gid now proposals = (.complete, db)) := by
  constructor
  · intro db gid now proposals g n hg hs hpe hlen hprop hn
    have hg' : db.games.find? (fun x => x.game_id == gid) = some g := hg
    have hkey : (g.game_id == gid) = true := game_key_eq hg'
    have hmem : n ∈ proposals := List.mem_of_find?_eq_some hn
    have hfresh : g.numbers_called.contains n = false := by
      have h1 := List.find?_some hn
      simpa using h1
    have hred : call_number db gid now proposals =
        (.called n,
          { db with games := db.games.map (fun x =>
              if x.game_id == gid then
                { x with numbers_called := x.numbers_called ++ [n] }
              else x) }) := by
      simp only [call_number, hg', hn]
      rw [if_neg (by simp [hs, hpe]), if_neg (by omega)]
    refine ⟨by rw [hred], (hprop n hmem).1, (hprop n hmem).2, hfresh, ?_⟩
    rw [hred]
    simp only [gameOf]
    rw [find?_game_map _ _ _ (by intro a; split <;> rfl), hg']
    have hkey' : g.game_id = gid := by simpa using hkey
    simp [hkey']
  · intro db gid now proposals g hg hs hpe hlen
    have hg' : db.games.find? (fun x => x.game_id == gid) = some g := hg
    simp only [call_number, hg']
    rw [if_neg (by simp [hs, hpe]), if_pos hlen]

/-- C7 witness: on the started game G7 with numbers 3, 14, 15 drawn and the
randint stream 3, 7, the call returns 7 and appends it; on G7F, where all 100
numbers are drawn, the call answers `complete` unchanged. -/
theorem C7_call_number_witness :
    (call_number c7_db "G7" 5 [3, 7]).1 = .called 7 ∧
    1 ≤ 7 ∧ 7 ≤ 100 ∧
    c7_game.numbers_called.contains 7 = false ∧
    (gameOf (call_number c7_db "G7" 5 [3, 7]).2 "G7").map (fun x => x.numbers_called) =
      some (c7_game.numbers_called ++ [7]) ∧
    call_number c7_db_full "G7F" 5 [3, 7] = (.complete, c7_db_full) :=
  have h1 := C7_call_number_fresh_and_exhaustion.1 c7_db "G7" 5 [3, 7] c7_game 7
    (by decide) (by decide) (by decide) (by decide) (by decide) (by decide)
  have h2 := C7_call_number_fresh_and_exhaustion.2 c7_db_full "G7F" 5 [3, 7] c7_game_full
    (by decide) (by decide) (by decide) (by decide)
  ⟨h1.1, h1.2.1, h1.2.2.1, h1.2.2.2.1, h1.2.2.2.2, h2⟩

/-- Unfolding of the auto_start condition of game_status into its three
conjuncts. -/
theorem autoStartCond_iff (g : Game) (now : Int) :
    autoStartCond g now = true ↔
      g.countdown_start.isSome = true ∧ 2 ≤ g.players.length ∧
      GAME_COUNTDOWN_SECONDS ≤ now - g.countdown_start.getD 0 := by
  unfold autoStartCond
  cases g.countdown_start <;> simp

/-- A roster smaller than two players never satisfies the auto_start
condition. -/
theorem autoStartCond_of_short (g : Game) (now : Int) (h : g.players.length < 2) :
    autoStartCond g now = false := by
  unfold autoStartCond
  cases g.countdown_start with
  | none => rfl
  | some t =>
    have h2 : ¬ 2 ≤ g.players.length := by omega
    simp [h2]

/-- A status read that does not fire the auto-start transition leaves the
store untouched. -/
theorem game_status_db_eq_of_not_auto (db : DB) (gid : String) (uid : Nat) (now : Int)
    (g : Game) (hg : db.games.find? (fun x => x.game_id == gid) = some g)
    (h : ¬ (autoStartCond g now = true ∧ g.status = "waiting")) :
    (game_status db gid uid now).2 = db := by
  simp only [game_status, hg]
  by_cases hns : uid ∉ g.players ∧ g.status ≠ "waiting"
  · rw [if_pos hns]
  · rw [if_neg hns, if_neg h]

/-- A status read that fires the auto-start transition rewrites the game row
to started with the stamped start_time and gross prize pool. -/
theorem game_status_db_eq_of_auto (db : DB) (gid : String) (uid : Nat) (now : Int)
    (g : Game) (hg : db.games.find? (fun x => x.game_id == gid) = some g)
    (hw : g.status = "waiting") (hauto : autoStartCond g now = true) :
    (game_status db gid uid now).2 =
      { db with games := db.games.map (fun x =>
          if x.game_id == gid then
            { x with status := "started", start_time := some now,
                     prize_amount := g.bet_amount * (g.players.length : Int) }
          else x) } := by
  simp only [game_status, hg]
  rw [if_neg (fun hc => hc.2 hw), if_pos ⟨hauto, hw⟩]

/-- C8: a status read transitions a game from waiting to started exactly when
countdown_start is set, the roster has at least two players, and at least
GAME_COUNTDOWN_SECONDS (120) seconds have elapsed since countdown_start; the
transition stamps start_time = now and prize_amount = bet_amount times the
roster size; and a game with exactly one player is never changed by a status
read, regardless of the elapsed time. -/
theorem C8_auto_start_characterization :
    (∀ (db : DB) (gid : String) (uid : Nat) (now : Int) (g : Game),
       gameOf db gid = some g →
       (((gameOf (game_status db gid uid now).2 gid).map (fun x => x.status) =
           some "started" ∧ g.status = "waiting")
        ↔ (g.status = "waiting" ∧ g.countdown_start.isSome = true ∧
           2 ≤ g.players.length ∧
           GAME_COUNTDOWN_SECONDS ≤ now - g.countdown_start.getD 0))) ∧
    (∀ (db : DB) (gid : String) (uid : Nat) (now t : Int) (g : Game),
       gameOf db gid = some g → g.status = "waiting" → g.countdown_start = some t →
       2 ≤ g.players.length → GAME_COUNTDOWN_SECONDS ≤ now - t →
       (gameOf (game_status db gid uid now).2 gid).map
           (fun x => (x.status, x.start_time, x.prize_amount)) =
         some ("started", some now, g.bet_amount * (g.players.length : Int))) ∧
    (∀ (db : DB) (gid : String) (uid : Nat) (now : Int) (g : Game),
       gameOf db gid = some g → g.players.length = 1 →
       (game_status db gid uid now).2 = db) := by
  refine ⟨?_, ?_, ?_⟩
  · intro db gid uid now g hg
    have hg' : db.games.find? (fun x => x.game_id == gid) = some g := hg
    have hkey : g.game_id = gid := by simpa using game_key_eq hg'
    by_cases hw : g.status = "waiting"
    · by_cases hauto : autoStartCond g now = true
      · rw [game_status_db_eq_of_auto db gid uid now g hg' hw hauto]
        have hnew : gameOf
            { db with games := db.games.map (fun x =>
                if x.game_id == gid then
                  { x with status := "started", start_time := some now,
                           prize_amount := g.bet_amount * (g.players.length : Int) }
                else x) } gid =
            some { g with status := "started", start_time := some now,
                          prize_amount := g.bet_amount * (g.players.length : Int) } := by
          simp only [gameOf]
          rw [find?_game_map _ _ _ (by intro a; split <;> rfl), hg']
          simp [hkey]
        rw [hnew]
        exact iff_of_true ⟨rfl, hw⟩ ⟨hw, (autoStartCond_iff g now).mp hauto⟩
      · rw [game_status_db_eq_of_not_auto db gid uid now g hg' (fun hc => hauto hc.1)]
        rw [show gameOf db gid = some g from hg']
        constructor
        · rintro ⟨h1, -⟩
          exfalso
          simp only [Option.map] at h1
          rw [hw] at h1
          exact absurd (Option.some.inj h1) (by decide)
        · rintro ⟨-, hrest⟩
          exact absurd ((autoStartCond_iff g now).mpr hrest) hauto
    · rw [game_status_db_eq_of_not_auto db gid uid now g hg' (fun hc => hw hc.2)]
      rw [show gameOf db gid = some g from hg']
      constructor
      · rintro ⟨-, h2⟩
        exact absurd h2 hw
      · rintro ⟨h1, -⟩
        exact absurd h1 hw
  · intro db gid uid now t g hg hw hcd hlen helapsed
    have hg' : db.games.find? (fun x => x.game_id == gid) = some g := hg
    have hkey : g.game_id = gid := by simpa using game_key_eq hg'
    have hauto : autoStartCond g now = true := by
      rw [autoStartCond_iff]
      refine ⟨by rw [hcd]; rfl, hlen, ?_⟩
      rw [hcd]
      exact helapsed
    rw [game_status_db_eq_of_auto db gid uid now g hg' hw hauto]
    simp only [gameOf]
    rw [find?_game_map _ _ _ (by intro a; split <;> rfl), hg']
    simp [hkey]
  · intro db gid uid now g hg hsolo
    have hg' : db.games.find? (fun x => x.game_id == gid) = some g := hg
    have hauto : autoStartCond g now = false :=
      autoStartCond_of_short g now (by omega)
    exact game_status_db_eq_of_not_auto db gid uid now g hg'
      (fun hc => by rw [hauto] at hc; exact absurd hc.1 (by decide))

/-- C8 witness: the waiting two-player game G8 with countdown_start 0 is
started by a status read at time 120 with prize 100, while the single-player
game G8S is untouched by a status read at time 99999. -/
theorem C8_auto_start_witness :
    (gameOf (game_status c8_db "G8" 1 120).2 "G8").map
        (fun x => (x.status, x.start_time, x.prize_amount)) =
      some ("started", some 120, c8_game.bet_amount * (c8_game.players.length : Int)) ∧
    (game_status c8_db_solo "G8S" 1 99999).2 = c8_db_solo :=
  ⟨C8_auto_start_characterization.2.1 c8_db "G8" 1 120 0 c8_game
     (by decide) (by decide) (by decide) (by decide) (by decide),
   C8_auto_start_characterization.2.2 c8_db_solo "G8S" 1 99999 c8_game_solo
     (by decide) (by decide)⟩

/-- C10 amended: check_bingo imposes no game-status precondition beyond the
absence of a recorded winner: on a game still in waiting (hence with no
numbers called), a bingo claim by a roster member whose stored card has
generated numbers is processed and always judged invalid, so the claimant is
removed from the roster, their card row is deleted, their invalid-bingo
counter is incremented, and their already-debited stake is not refunded (the
wallet is unchanged); a roster member whose placeholder card still has NULL
card_numbers instead triggers an internal error with no state change (see the
C10 counterexample). -/
theorem C10_waiting_claim_amended :
    ∀ (db : DB) (uid : Nat) (gid : String) (now : Int) (g : Game) (c : PlayerCard)
      (cs : List Nat) (u : User),
      gameOf db gid = some g →
      g.status = "waiting" →
      g.numbers_called = [] →
      g.winner_id = none →
      uid ∈ g.players →
      cardOf db gid uid = some c →
      c.card_numbers = some cs →
      userOf db uid = some u →
      (check_bingo db uid gid now).1 = .kickedInvalid ∧
      (gameOf (check_bingo db uid gid now).2 gid).map (fun x => (x.players, x.status)) =
        some (g.players.erase uid, "waiting") ∧
      cardOf (check_bingo db uid gid now).2 gid uid = none ∧
      invalidCountOf (check_bingo db uid gid now).2 uid =
        some (u.invalid_bingo_count + 1) ∧
      walletOf (check_bingo db uid gid now).2 uid = some u.wallet := by
  intro db uid gid now g c cs u hg hst hnc hwin hmem hcard hcs hu
  have hg' : db.games.find? (fun x => x.game_id == gid) = some g := hg
  have hc' : db.cards.find? (fun x => x.game_id == gid && x.user_id == uid) = some c := hcard
  have hu' : db.users.find? (fun x => x.user_id == uid) = some u := hu
  have hkey : g.game_id = gid := by simpa using game_key_eq hg'
  have hukey : (u.user_id == uid) = true := user_key_eq hu'
  have hwonf : bingo_won cs g.numbers_called = false := by
    rw [hnc]
    exact bingo_won_nil cs
  have hred : check_bingo db uid gid now =
      (.kickedInvalid,
        { db with
            games := db.games.map (fun x =>
              if x.game_id == gid then { x with players := g.players.erase uid } else x)
            cards := db.cards.filter (fun x => !(x.game_id == gid && x.user_id == uid))
            users := db.users.map (fun v =>
              if v.user_id == uid then
                { v with invalid_bingo_count := v.invalid_bingo_count + 1 }
              else v) }) := by
    simp only [check_bingo, hg', hwin, hc', hcs, hwonf]
    rw [if_neg (not_not_intro hmem), if_pos trivial]
  have hukey' : u.user_id = uid := by simpa using hukey
  refine ⟨by rw [hred], ?_, ?_, ?_, ?_⟩
  · rw [hred]
    simp only [gameOf]
    rw [find?_game_map _ _ _ (by intro a; split <;> rfl), hg']
    simp [hkey, hst]
  · rw [hred]
    show (db.cards.filter _).find? _ = none
    exact find?_filter_not_none db.cards (fun x => x.game_id == gid && x.user_id == uid)
  · rw [hred]
    simp only [invalidCountOf, userOf]
    rw [find?_user_map _ _ _ (by intro a; split <;> rfl), hu']
    simp [hukey']
  · rw [hred]
    simp only [walletOf, userOf]
    rw [find?_user_map _ _ _ (by intro a; split <;> rfl), hu']
    simp [hukey']

/-- C10 witness: claimant 7 of waiting game GW (no numbers called, winner
NULL) holds a generated card; the claim is processed, judged invalid, 7 is
removed from the roster, the card is deleted, the counter goes to 1, and the
wallet stays at 30. -/
theorem C10_waiting_claim_witness :
    (check_bingo c10w_db 7 "GW" 0).1 = .kickedInvalid ∧
    (gameOf (check_bingo c10w_db 7 "GW" 0).2 "GW").map (fun x => (x.players, x.status)) =
      some (c10_game.players.erase 7, "waiting") ∧
    cardOf (check_bingo c10w_db 7 "GW" 0).2 "GW" 7 = none ∧
    invalidCountOf (check_bingo c10w_db 7 "GW" 0).2 7 =
      some (c10_user.invalid_bingo_count + 1) ∧
    walletOf (check_bingo c10w_db 7 "GW" 0).2 7 = some c10_user.wallet :=
  C10_waiting_claim_amended c10w_db 7 "GW" 0 c10_game c10_cardRow c1_card c10_user
    (by decide) (by decide) (by decide) (by decide) (by decide) (by decide)
    (by decide) (by decide)

/-- C4: on a game with no recorded winner, a claim by a roster member whose
stored card satisfies the win predicate against the called numbers pays
prize = floor(bet_amount * rosterSize * (1 - 0.02)) computed on the current
roster (i.e. after any prior invalid-claim removals, since those rewrote the
players column), marks the game finished with the winner id, prize and end
time, credits the prize to the winner's wallet and increments their score by
one; and any claim against a game that already has a recorded winner is
rejected with no state change. -/
theorem C4_first_valid_claim_wins :
    (∀ (db : DB) (uid : Nat) (gid : String) (now : Int) (g : Game) (c : PlayerCard)
       (cs : List Nat) (u : User),
       gameOf db gid = some g →
       g.winner_id = none →
       uid ∈ g.players →
       cardOf db gid uid = some c →
       c.card_numbers = some cs →
       userOf db uid = some u →
       bingo_won cs g.numbers_called = true →
       (check_bingo db uid gid now).1 =
         .won (prizeAfterHouseCut (g.bet_amount * (g.players.length : Int))) ∧
       (gameOf (check_bingo db uid gid now).2 gid).map
           (fun x => (x.status, x.winner_id, x.prize_amount, x.end_time)) =
         some ("finished", some uid,
               prizeAfterHouseCut (g.bet_amount * (g.players.length : Int)), some now) ∧
       walletOf (check_bingo db uid gid now).2 uid =
         some (u.wallet + prizeAfterHouseCut (g.bet_amount * (g.players.length : Int))) ∧
       scoreOf (check_bingo db uid gid now).2 uid = some (u.score + 1)) ∧
    (∀ (db : DB) (uid : Nat) (gid : String) (now : Int) (g : Game) (w : Nat),
       gameOf db gid = some g →
       g.winner_id = some w →
       check_bingo db uid gid now = (.alreadyWonOrMissing, db)) := by
  constructor
  · intro db uid gid now g c cs u hg hwin hmem hcard hcs hu hwon
    have hg' : db.games.find? (fun x => x.game_id == gid) = some g := hg
    have hc' : db.cards.find? (fun x => x.game_id == gid && x.user_id == uid) = some c :=
      hcard
    have hu' : db.users.find? (fun x => x.user_id == uid) = some u := hu
    have hkey : g.game_id = gid := by simpa using game_key_eq hg'
    have hukey : u.user_id = uid := by simpa using user_key_eq hu'
    have hred : check_bingo db uid gid now =
        (.won (prizeAfterHouseCut (g.bet_amount * (g.players.length : Int))),
          { db with
              games := db.games.map (fun x =>
                if x.game_id == gid then
                  { x with winner_id := some uid,
                           prize_amount :=
                             prizeAfterHouseCut (g.bet_amount * (g.players.length : Int)),
                           status := "finished", end_time := some now }
                else x)
              users := db.users.map (fun v =>
                if v.user_id == uid then
                  { v with wallet := v.wallet +
                             prizeAfterHouseCut (g.bet_amount * (g.players.length : Int)),
                           score := v.score + 1 }
                else v) }) := by
      simp only [check_bingo, hg', hwin, hc', hcs, hwon, hu']
      rw [if_neg (not_not_intro hmem), if_neg (by simp)]
    refine ⟨by rw [hred], ?_, ?_, ?_⟩
    · rw [hred]
      simp only [gameOf]
      rw [find?_game_map _ _ _ (by intro a; split <;> rfl), hg']
      simp [hkey]
    · rw [hred]
      simp only [walletOf, userOf]
      rw [find?_user_map _ _ _ (by intro a; split <;> rfl), hu']
      simp [hukey]
    · rw [hred]
      simp only [scoreOf, userOf]
      rw [find?_user_map _ _ _ (by intro a; split <;> rfl), hu']
      simp [hukey]
  · intro db uid gid now g w hg hwin
    have hg' : db.games.find? (fun x => x.game_id == gid) = some g := hg
    simp only [check_bingo, hg', hwin]

/-- C4 witness: claimant 1 of game G4 (bet 50, roster of two, five numbers
called matching five card numbers, so the computed win predicate holds) is
paid floor(100 * 0.98) = 98, the game is finished with winner 1 and end time
777, and the wallet and score move from 0 to 98 and 0 to 1; a follow-up claim
by player 2 against the finished copy of the game is rejected unchanged. -/
theorem C4_first_valid_claim_wins_witness :
    (check_bingo c4_db 1 "G4" 777).1 =
      .won (prizeAfterHouseCut (c4_game.bet_amount * (c4_game.players.length : Int))) ∧
    (gameOf (check_bingo c4_db 1 "G4" 777).2 "G4").map
        (fun x => (x.status, x.winner_id, x.prize_amount, x.end_time)) =
      some ("finished", some 1,
            prizeAfterHouseCut (c4_game.bet_amount * (c4_game.players.length : Int)),
            some 777) ∧
    walletOf (check_bingo c4_db 1 "G4" 777).2 1 =
      some (c4_user.wallet +
            prizeAfterHouseCut (c4_game.bet_amount * (c4_game.players.length : Int))) ∧
    scoreOf (check_bingo c4_db 1 "G4" 777).2 1 = some (c4_user.score + 1) ∧
    check_bingo c4_db_won 2 "G4" 778 = (.alreadyWonOrMissing, c4_db_won) :=
  have h1 := C4_first_valid_claim_wins.1 c4_db 1 "G4" 777 c4_game c4_cardRow c1_card c4_user
    (by decide) (by decide) (by decide) (by decide) (by decide) (by decide) (by decide)
  have h2 := C4_first_valid_claim_wins.2 c4_db_won 2 "G4" 778 c4_game_won 1
    (by decide) (by decide)
  ⟨h1.1, h1.2.1, h1.2.2.1, h1.2.2.2, h2⟩

/-- join_game preserves the store invariant: its only debit is guarded by the
wallet check at bot.py lines 565-569. -/
theorem join_game_inv (db : DB) (uid : Nat) (gid : String) (bet : Int) (now : Int)
    (h : DBInv db) : DBInv (join_game db uid gid bet now).2 := by
  obtain ⟨hnd, hw, hbet, htx⟩ := h
  cases hg : db.games.find? (fun g => g.game_id == gid && g.status == "waiting") with
  | none => simp only [join_game, hg]; exact ⟨hnd, hw, hbet, htx⟩
  | some g =>
    simp only [join_game, hg]
    by_cases hmem : uid ∈ g.players
    · rw [if_pos hmem]; exact ⟨hnd, hw, hbet, htx⟩
    · rw [if_neg hmem]
      by_cases hbe : bet ≠ g.bet_amount
      · rw [if_pos hbe]; exact ⟨hnd, hw, hbet, htx⟩
      · rw [if_neg hbe]
        cases hu : db.users.find? (fun u => u.user_id == uid) with
        | none => exact ⟨hnd, hw, hbet, htx⟩
        | some u =>
          dsimp only
          by_cases hwal : u.wallet < bet
          · rw [if_pos hwal]; exact ⟨hnd, hw, hbet, htx⟩
          · rw [if_neg hwal]
            dsimp only
            refine ⟨?_, ?_, ?_, htx⟩
            · rw [debitWallet_keys]; exact hnd
            · exact debitWallet_wallet_nonneg db.users uid bet hw
                (guarded_debit_bound db.users uid bet u hnd hu (by omega))
            · have h1 : ∀ x ∈ db.games.map (fun x =>
                  if x.game_id == gid then { x with players := g.players ++ [uid] } else x),
                  0 ≤ x.bet_amount :=
                bets_nonneg_map _ _ (by intro a; split <;> rfl) hbet
              split
              · exact bets_nonneg_map _ _ (by intro a; split <;> rfl) h1
              · exact h1

/-- check_bingo preserves the store invariant: the only wallet change is the
prize credit, which is non-negative because bet amounts are. -/
theorem check_bingo_inv (db : DB) (uid : Nat) (gid : String) (now : Int)
    (h : DBInv db) : DBInv (check_bingo db uid gid now).2 := by
  obtain ⟨hnd, hw, hbet, htx⟩ := h
  cases hg : db.games.find? (fun g => g.game_id == gid) with
  | none => simp only [check_bingo, hg]; exact ⟨hnd, hw, hbet, htx⟩
  | some g =>
    simp only [check_bingo, hg]
    cases hwin : g.winner_id with
    | some w => exact ⟨hnd, hw, hbet, htx⟩
    | none =>
      dsimp only
      by_cases hmem : uid ∉ g.players
      · rw [if_pos hmem]; exact ⟨hnd, hw, hbet, htx⟩
      · rw [if_neg hmem]
        cases hc : db.cards.find? (fun c => c.game_id == gid && c.user_id == uid) with
        | none => exact ⟨hnd, hw, hbet, htx⟩
        | some c =>
          dsimp only
          cases hcs : c.card_numbers with
          | none => exact ⟨hnd, hw, hbet, htx⟩
          | some cs =>
            dsimp only
            by_cases hwon : bingo_won cs g.numbers_called = false
            · rw [if_pos hwon]
              dsimp only
              refine ⟨?_, ?_, ?_, htx⟩
              · rw [map_user_id_map _ _ (by intro v; split <;> rfl)]; exact hnd
              · exact wallets_nonneg_map db.users _
                  (fun v hv => by split <;> exact hv) hw
              · exact bets_nonneg_map _ _ (by intro a; split <;> rfl) hbet
            · rw [if_neg hwon]
              cases hu : db.users.find? (fun x => x.user_id == uid) with
              | none => exact ⟨hnd, hw, hbet, htx⟩
              | some u =>
                dsimp only
                have hprize : 0 ≤ prizeAfterHouseCut
                    (g.bet_amount * (g.players.length : Int)) := by
                  apply prizeAfterHouseCut_nonneg
                  exact mul_nonneg (hbet g (List.mem_of_find?_eq_some hg))
                    (Int.natCast_nonneg _)
                refine ⟨?_, ?_, ?_, htx⟩
                · rw [map_user_id_map _ _ (by intro v; split <;> rfl)]; exact hnd
                · refine wallets_nonneg_map db.users _ (fun v hv => ?_) hw
                  split
                  · show 0 ≤ v.wallet + prizeAfterHouseCut
                      (g.bet_amount * (g.players.length : Int))
                    omega
                  · exact hv
                · exact bets_nonneg_map _ _ (by intro a; split <;> rfl) hbet

/-- verify_payment_action preserves the store invariant: it only credits the
(non-negative) deposit amount and the referral bonus. -/
theorem verify_payment_inv (db : DB) (txid : String) (h : DBInv db) :
    DBInv (verify_payment_action db txid).2 := by
  obtain ⟨hnd, hw, hbet, htx⟩ := h
  cases ht : db.transactions.find? (fun t => t.tx_id == txid && t.status == "pending") with
  | none => simp only [verify_payment_action, ht]; exact ⟨hnd, hw, hbet, htx⟩
  | some t =>
    simp only [verify_payment_action, ht]
    have hta : 0 ≤ t.amount := htx t (List.mem_of_find?_eq_some ht)
    have husers1 : ∀ v ∈ creditWallet db.users t.user_id t.amount, 0 ≤ v.wallet :=
      creditWallet_wallet_nonneg db.users t.user_id t.amount hta hw
    have hkeys1 : ((creditWallet db.users t.user_id t.amount).map
        (fun u => u.user_id)).Nodup := by
      rw [creditWallet_keys]; exact hnd
    have htx1 : ∀ x ∈ db.transactions.map (fun x =>
        if x.tx_id == txid then { x with status := "verified" } else x), 0 ≤ x.amount :=
      txs_nonneg_map _ _ (by intro a; split <;> rfl) htx
    cases hr : db.referrals.find? (fun r => r.referee_id == t.user_id && !r.bonus_credited) with
    | none =>
      dsimp only
      exact ⟨hkeys1, husers1, hbet, htx1⟩
    | some r =>
      dsimp only
      refine ⟨?_, ?_, hbet, htx1⟩
      · rw [creditWallet_keys, creditWallet_keys]; exact hnd
      · exact creditWallet_wallet_nonneg _ _ _ (by decide) husers1

/-- check_referral_bonus never changes the store (its award branch always
fails on the invalid UPDATE ... LIMIT statement). -/
theorem check_referral_bonus_inv (db : DB) (uid : Nat) (h : DBInv db) :
    DBInv (check_referral_bonus db uid).2 := by
  have hid : (check_referral_bonus db uid).2 = db := by
    unfold check_referral_bonus
    dsimp only
    rw [ite_self]
  rw [hid]
  exact h

/-- request_withdrawal preserves the store invariant: the escrow debit is
guarded by the wallet check at bot.py lines 859-863. -/
theorem request_withdrawal_inv (db : DB) (uid : Nat) (amount : Int) (method wid : String)
    (h : DBInv db) : DBInv (request_withdrawal db uid amount method wid).2 := by
  obtain ⟨hnd, hw, hbet, htx⟩ := h
  unfold request_withdrawal
  by_cases hmin : amount < MINIMUM_WITHDRAWAL
  · rw [if_pos hmin]; exact ⟨hnd, hw, hbet, htx⟩
  · rw [if_neg hmin]
    cases hu : db.users.find? (fun u => u.user_id == uid) with
    | none => exact ⟨hnd, hw, hbet, htx⟩
    | some u =>
      dsimp only
      by_cases hwal : u.wallet < amount
      · rw [if_pos hwal]; exact ⟨hnd, hw, hbet, htx⟩
      · rw [if_neg hwal]
        dsimp only
        refine ⟨?_, ?_, hbet, htx⟩
        · rw [debitWallet_keys]; exact hnd
        · exact debitWallet_wallet_nonneg db.users uid amount hw
            (guarded_debit_bound db.users uid amount u hnd hu (by omega))

/-- manage_withdrawal_action preserves the store invariant: the approve debit
is guarded by the wallet check at bot.py line 481 and reject only flips the
status. -/
theorem manage_withdrawal_inv (db : DB) (wid action_type note : String) (h : DBInv db) :
    DBInv (manage_withdrawal_action db wid action_type note).2 := by
  obtain ⟨hnd, hw, hbet, htx⟩ := h
  cases hwd : db.withdrawals.find? (fun w => w.withdraw_id == wid && w.status == "pending") with
  | none => simp only [manage_withdrawal_action, hwd]; exact ⟨hnd, hw, hbet, htx⟩
  | some w =>
    simp only [manage_withdrawal_action, hwd]
    cases hu : db.users.find? (fun u => u.user_id == w.user_id) with
    | none => exact ⟨hnd, hw, hbet, htx⟩
    | some u =>
      dsimp only
      by_cases happ : action_type = "approve" ∧ w.amount ≤ u.wallet
      · rw [if_pos happ]
        dsimp only
        refine ⟨?_, ?_, hbet, htx⟩
        · rw [debitWallet_keys]; exact hnd
        · exact debitWallet_wallet_nonneg db.users w.user_id w.amount hw
            (guarded_debit_bound db.users w.user_id w.amount u hnd hu happ.2)
      · rw [if_neg happ]
        by_cases hrej : action_type = "reject"
        · rw [if_pos hrej]; exact ⟨hnd, hw, hbet, htx⟩
        · rw [if_neg hrej]; exact ⟨hnd, hw, hbet, htx⟩

/-- Every core operation preserves the store invariant. -/
theorem step_inv (db : DB) (op : Op) (h : DBInv db) : DBInv (step db op) := by
  cases op with
  | join uid gid bet now => exact join_game_inv db uid gid bet now h
  | bingoClaim uid gid now => exact check_bingo_inv db uid gid now h
  | verifyDeposit txid => exact verify_payment_inv db txid h
  | referralBonus uid => exact check_referral_bonus_inv db uid h
  | withdrawRequest uid amount method wid =>
    exact request_withdrawal_inv db uid amount method wid h
  | withdrawResolve wid a note => exact manage_withdrawal_inv db wid a note h

/-- C3: from any well-formed store (unique user ids, non-negative wallets,
non-negative bet and deposit amounts on file), every sequence of core
operations — join, bingo claim with its win credit, deposit verification,
referral-bonus check, withdrawal request, withdrawal approve/reject — leaves
every wallet non-negative: each debit in the code is guarded by a balance
check and is refused rather than applied when the balance is smaller than the
amount. -/
theorem C3_wallet_nonneg_invariant (ops : List Op) (db : DB) (h : DBInv db) :
    ∀ u ∈ (ops.foldl step db).users, 0 ≤ u.wallet := by
  suffices hInv : DBInv (ops.foldl step db) by exact hInv.2.1
  induction ops generalizing db with
  | nil => exact h
  | cons op t ih => exact ih (step db op) (step_inv db op h)

/-- C3 witness: user 1 starts with 150, requests a withdrawal of 100 (leaving
50), is rejected on a second withdrawal of 100, and the wallet the sequence
produces is the non-negative 50. -/
theorem C3_wallet_nonneg_witness :
    0 ≤ (User.mk 1 50 0 "user" 0).wallet :=
  C3_wallet_nonneg_invariant
    [Op.withdrawRequest 1 100 "telebirr" "W1", Op.withdrawRequest 1 100 "telebirr" "W2"]
    c3_db (by decide) (User.mk 1 50 0 "user" 0) (by decide)
